import Mathlib

/-
Verification of the lignum 2D drawing engine (path/state core).

Modelling conventions, kept uniform through the file:
* Rust `f64` values are modelled as `ℚ`.  Every operation the claims below
  exercise uses only ring operations, `min`/`max`, absolute value and exact
  comparisons, all of which behave identically on the rationals and on the
  floats actually fed to them in the claims (the decimal tolerance literals
  `1e-9`, `1e-6`, `1e-12` are modelled by their exact decimal values).
* The transcendental functions the source calls (`sqrt`, `sin`, `cos`, `tan`,
  `acos`, `atan2`) and the constant `PI` are abstracted as a record of
  uninterpreted functions `RealOps`; every theorem is universally quantified
  over it, so nothing proved depends on their values.
* The SVG backend builds its `d` attribute as a string of commands separated
  by spaces; the string is modelled as the list of commands it denotes
  (`SvgCmd`), one list element per `push_path` call.  The streaming XML
  writer is modelled as the list of emitted items (`SvgEvent`), one element
  per element/definition written; XML serialisation itself is out of the
  engine's scope.
* The external `cairo::Context` is modelled as the trace of drawing calls
  issued to it (`CairoCmd` list).
* Rust methods returning `Result<()>` that can only ever return `Ok` in the
  model (their sole failure source is the external byte sink) are modelled
  as total functions on the canvas; the operations that genuinely produce
  errors (the SVG backend's unsupported operations) return `Except LErr`.
-/

/-- 2D affine transform as 6 coefficients `(a,b,c,d,e,f)`, the matrix
`[[a,c,e],[b,d,f],[0,0,1]]` (source: `[f64; 6]` arrays). -/
@[ext]
structure M6 where
  a : ℚ
  b : ℚ
  c : ℚ
  d : ℚ
  e : ℚ
  f : ℚ
deriving DecidableEq

/-- The identity transform `(1,0,0,1,0,0)`. -/
def M6.id : M6 := ⟨1, 0, 0, 1, 0, 0⟩

/-- Composition formula as written in spec section 3:
`M ∘ N` applies `N` first, then `M`. -/
def composeSpec (m n : M6) : M6 :=
  ⟨m.a * n.a + m.c * n.b,
   m.b * n.a + m.d * n.b,
   m.a * n.c + m.c * n.d,
   m.b * n.c + m.d * n.d,
   m.a * n.e + m.c * n.f + m.e,
   m.b * n.e + m.d * n.f + m.f⟩

/-- Abstracted transcendental operations on the number type (see header). -/
structure RealOps where
  sqrt : ℚ → ℚ
  sin : ℚ → ℚ
  cos : ℚ → ℚ
  tan : ℚ → ℚ
  acos : ℚ → ℚ
  atan2 : ℚ → ℚ → ℚ
  pi : ℚ

/-- A trivial instance of `RealOps`, used to instantiate witnesses. -/
def trivOps : RealOps :=
  ⟨fun _ => 0, fun _ => 0, fun _ => 0, fun _ => 0, fun _ => 0, fun _ _ => 0, 0⟩

/-- src/api.rs `LineCap`. -/
inductive LineCap where
  | Butt | Round | Square
deriving DecidableEq

/-- src/api.rs `LineJoin`. -/
inductive LineJoin where
  | Round | Bevel | Miter
deriving DecidableEq

/-- src/api.rs `TextAlign`. -/
inductive TextAlign where
  | Left | Right | Center | Start | End
deriving DecidableEq

/-- src/api.rs `TextBaseline`. -/
inductive TextBaseline where
  | Top | Hanging | Middle | Alphabetic | Ideographic | Bottom
deriving DecidableEq

/-- src/api.rs `Direction`. -/
inductive Direction where
  | Ltr | Rtl | Inherit
deriving DecidableEq

/-- src/api.rs `CompositeOperation`. -/
inductive CompositeOperation where
  | SourceOver | SourceIn | SourceOut | SourceAtop
  | DestinationOver | DestinationIn | DestinationOut | DestinationAtop
  | Lighter | Copy | Xor | Multiply | Screen | Overlay | Darken | Lighten
  | ColorDodge | ColorBurn | HardLight | SoftLight | Difference | Exclusion
  | Hue | Saturation | Color | Luminosity
deriving DecidableEq

/-- src/api.rs `FillRule`. -/
inductive FillRule where
  | NonZero | EvenOdd
deriving DecidableEq

/-- src/api.rs `ImageSmoothingQuality`. -/
inductive ImageSmoothingQuality where
  | Low | Medium | High
deriving DecidableEq

/-- src/api.rs `PatternRepetition`. -/
inductive PatternRepetition where
  | Repeat | RepeatX | RepeatY | NoRepeat
deriving DecidableEq

/-- src/api.rs `GradientStop`. -/
structure GradientStop where
  offset : ℚ
  color : String
deriving DecidableEq

/-- src/api.rs `GradientKind`. -/
inductive GradientKind where
  | Linear (x0 y0 x1 y1 : ℚ)
  | Radial (x0 y0 r0 x1 y1 r1 : ℚ)
deriving DecidableEq

/-- src/api.rs `CanvasGradient`. -/
structure CanvasGradient where
  kind : GradientKind
  stops : List GradientStop
deriving DecidableEq

/-- src/api.rs `CanvasPattern`. -/
structure CanvasPattern where
  repetition : PatternRepetition
  transform : Option M6
deriving DecidableEq

/-- src/api.rs `Paint`. -/
inductive Paint where
  | Color (c : String)
  | Gradient (g : CanvasGradient)
  | Pattern (p : CanvasPattern)
deriving DecidableEq

/-- src/backends/recording.rs `PathCommand`. -/
inductive PathCommand where
  | MoveTo (x y : ℚ)
  | LineTo (x y : ℚ)
  | BezierCurveTo (cp1x cp1y cp2x cp2y x y : ℚ)
  | QuadraticCurveTo (cpx cpy x y : ℚ)
  | Arc (x y radius start_angle end_angle : ℚ) (ccw : Bool)
  | ArcTo (x1 y1 x2 y2 radius : ℚ)
  | Ellipse (x y radius_x radius_y rotation start_angle end_angle : ℚ) (ccw : Bool)
  | Rect (x y w h : ℚ)
  | RoundRect (x y w h r0 r1 r2 r3 : ℚ)
  | ClosePath
deriving DecidableEq

/-- src/backends/recording.rs `RecordedPath`. -/
structure RecordedPath where
  commands : List PathCommand
deriving DecidableEq

/-- src/backends/recording.rs `ClipState`. -/
structure ClipState where
  path : RecordedPath
  rule : FillRule
  transform : M6
deriving DecidableEq

/-- src/backends/recording.rs `RecorderState`. -/
structure RecorderState where
  global_alpha : ℚ
  composite : CompositeOperation
  image_smoothing_enabled : Bool
  image_smoothing_quality : ImageSmoothingQuality
  shadow_offset_x : ℚ
  shadow_offset_y : ℚ
  shadow_blur : ℚ
  shadow_color : String
  line_width : ℚ
  line_cap : LineCap
  line_join : LineJoin
  miter_limit : ℚ
  line_dash : List ℚ
  line_dash_offset : ℚ
  fill_style : Paint
  stroke_style : Paint
  font : String
  text_align : TextAlign
  text_baseline : TextBaseline
  direction : Direction
  transform : M6
  clip : Option ClipState
deriving DecidableEq

/-- src/backends/recording.rs `impl Default for RecorderState`. -/
def RecorderState.default : RecorderState :=
  { global_alpha := 1
    composite := CompositeOperation.SourceOver
    image_smoothing_enabled := true
    image_smoothing_quality := ImageSmoothingQuality.Low
    shadow_offset_x := 0
    shadow_offset_y := 0
    shadow_blur := 0
    shadow_color := ("rgba(0,0,0,0)")
    line_width := 1
    line_cap := LineCap.Butt
    line_join := LineJoin.Miter
    miter_limit := 10
    line_dash := []
    line_dash_offset := 0
    fill_style := Paint.Color ("#000")
    stroke_style := Paint.Color ("#000")
    font := ("10px sans-serif")
    text_align := TextAlign.Start
    text_baseline := TextBaseline.Alphabetic
    direction := Direction.Inherit
    transform := M6.id
    clip := none }

/-- src/backends/recording.rs `Snapshot` (same attribute set as `RecorderState`). -/
structure Snapshot where
  global_alpha : ℚ
  composite : CompositeOperation
  image_smoothing_enabled : Bool
  image_smoothing_quality : ImageSmoothingQuality
  shadow_offset_x : ℚ
  shadow_offset_y : ℚ
  shadow_blur : ℚ
  shadow_color : String
  line_width : ℚ
  line_cap : LineCap
  line_join : LineJoin
  miter_limit : ℚ
  line_dash : List ℚ
  line_dash_offset : ℚ
  fill_style : Paint
  stroke_style : Paint
  font : String
  text_align : TextAlign
  text_baseline : TextBaseline
  direction : Direction
  transform : M6
  clip : Option ClipState
deriving DecidableEq

/-- src/api.rs `ImageData`. -/
structure ImageData where
  width : ℕ
  height : ℕ
  data : List ℕ
deriving DecidableEq

/-- src/backends/recording.rs `DrawOp`: the terminal emissions recorded by the
recording renderer. -/
inductive DrawOp where
  | FillPath (path : RecordedPath) (state : Snapshot) (rule : FillRule)
  | StrokePath (path : RecordedPath) (state : Snapshot)
  | Clip (path : RecordedPath) (state : Snapshot) (rule : FillRule)
  | FillRect (x y w h : ℚ) (state : Snapshot)
  | StrokeRect (x y w h : ℚ) (state : Snapshot)
  | FillText (text : String) (x y : ℚ) (max_width : Option ℚ) (state : Snapshot)
  | StrokeText (text : String) (x y : ℚ) (max_width : Option ℚ) (state : Snapshot)
  | ClearRect (x y w h : ℚ) (state : Snapshot)
deriving DecidableEq

namespace RecordingCanvas

/-- src/backends/recording.rs `RecordingCanvas` fields. -/
structure Canvas where
  ops : List DrawOp
  state : RecorderState
  stack : List RecorderState
  current_path : List PathCommand
  current_point : Option (ℚ × ℚ)
  subpath_start : Option (ℚ × ℚ)
deriving DecidableEq

/-- `RecordingCanvas::new`. -/
def new : Canvas :=
  { ops := []
    state := RecorderState.default
    stack := []
    current_path := []
    current_point := none
    subpath_start := none }

/-- `RecordingCanvas::snapshot`: copies every attribute of the live state. -/
def snapshot (s : RecorderState) : Snapshot :=
  { global_alpha := s.global_alpha
    composite := s.composite
    image_smoothing_enabled := s.image_smoothing_enabled
    image_smoothing_quality := s.image_smoothing_quality
    shadow_offset_x := s.shadow_offset_x
    shadow_offset_y := s.shadow_offset_y
    shadow_blur := s.shadow_blur
    shadow_color := s.shadow_color
    line_width := s.line_width
    line_cap := s.line_cap
    line_join := s.line_join
    miter_limit := s.miter_limit
    line_dash := s.line_dash
    line_dash_offset := s.line_dash_offset
    fill_style := s.fill_style
    stroke_style := s.stroke_style
    font := s.font
    text_align := s.text_align
    text_baseline := s.text_baseline
    direction := s.direction
    transform := s.transform
    clip := s.clip }

/-- `RecordingCanvas::multiply_transform` (recording.rs lines 311-322). -/
def multiply_transform (t m : M6) : M6 :=
  ⟨t.a * m.a + t.c * m.b,
   t.b * m.a + t.d * m.b,
   t.a * m.c + t.c * m.d,
   t.b * m.c + t.d * m.d,
   t.a * m.e + t.c * m.f + t.e,
   t.b * m.e + t.d * m.f + t.f⟩

/-- `CanvasState::save`: push a copy of the live state. -/
def save (c : Canvas) : Canvas :=
  { c with stack := c.state :: c.stack }

/-- `CanvasState::restore`: pop the top snapshot if any; no-op on empty stack. -/
def restore (c : Canvas) : Canvas :=
  match c.stack with
  | [] => c
  | s :: rest => { c with state := s, stack := rest }

/-- `CanvasState::reset` (recording.rs lines 360-366). -/
def reset (c : Canvas) : Canvas :=
  { c with state := RecorderState.default
           current_path := []
           current_point := none
           subpath_start := none }

/-- `CanvasTransforms::scale`. -/
def scale (x y : ℚ) (c : Canvas) : Canvas :=
  { c with state :=
      { c.state with transform := multiply_transform c.state.transform ⟨x, 0, 0, y, 0, 0⟩ } }

/-- `CanvasTransforms::rotate`. -/
def rotate (R : RealOps) (radians : ℚ) (c : Canvas) : Canvas :=
  let m : M6 := ⟨R.cos radians, R.sin radians, -(R.sin radians), R.cos radians, 0, 0⟩
  { c with state := { c.state with transform := multiply_transform c.state.transform m } }

/-- `CanvasTransforms::translate`. -/
def translate (x y : ℚ) (c : Canvas) : Canvas :=
  { c with state :=
      { c.state with transform := multiply_transform c.state.transform ⟨1, 0, 0, 1, x, y⟩ } }

/-- `CanvasTransforms::transform`. -/
def transform (a b cc d e f : ℚ) (c : Canvas) : Canvas :=
  { c with state :=
      { c.state with transform := multiply_transform c.state.transform ⟨a, b, cc, d, e, f⟩ } }

/-- `CanvasTransforms::set_transform`: outright replacement. -/
def set_transform (a b cc d e f : ℚ) (c : Canvas) : Canvas :=
  { c with state := { c.state with transform := ⟨a, b, cc, d, e, f⟩ } }

/-- `CanvasTransforms::reset_transform`. -/
def reset_transform (c : Canvas) : Canvas :=
  { c with state := { c.state with transform := M6.id } }

end RecordingCanvas

namespace RecordingCanvas

/-- `CanvasState::set_global_alpha` and fellow live-state attribute setters
(recording.rs: each operates only on the live state). -/
def set_global_alpha (v : ℚ) (c : Canvas) : Canvas :=
  { c with state := { c.state with global_alpha := v } }

/-- `CanvasState::set_global_composite_operation`. -/
def set_global_composite_operation (v : CompositeOperation) (c : Canvas) : Canvas :=
  { c with state := { c.state with composite := v } }

/-- `CanvasState::set_image_smoothing_enabled`. -/
def set_image_smoothing_enabled (v : Bool) (c : Canvas) : Canvas :=
  { c with state := { c.state with image_smoothing_enabled := v } }

/-- `CanvasState::set_image_smoothing_quality`. -/
def set_image_smoothing_quality (v : ImageSmoothingQuality) (c : Canvas) : Canvas :=
  { c with state := { c.state with image_smoothing_quality := v } }

/-- `CanvasCompositing::set_shadow_offset_x`. -/
def set_shadow_offset_x (v : ℚ) (c : Canvas) : Canvas :=
  { c with state := { c.state with shadow_offset_x := v } }

/-- `CanvasCompositing::set_shadow_offset_y`. -/
def set_shadow_offset_y (v : ℚ) (c : Canvas) : Canvas :=
  { c with state := { c.state with shadow_offset_y := v } }

/-- `CanvasCompositing::set_shadow_blur`. -/
def set_shadow_blur (v : ℚ) (c : Canvas) : Canvas :=
  { c with state := { c.state with shadow_blur := v } }

/-- `CanvasCompositing::set_shadow_color`. -/
def set_shadow_color (v : String) (c : Canvas) : Canvas :=
  { c with state := { c.state with shadow_color := v } }

/-- `CanvasLineStyles::set_line_width`. -/
def set_line_width (v : ℚ) (c : Canvas) : Canvas :=
  { c with state := { c.state with line_width := v } }

/-- `CanvasLineStyles::set_line_cap`. -/
def set_line_cap (v : LineCap) (c : Canvas) : Canvas :=
  { c with state := { c.state with line_cap := v } }

/-- `CanvasLineStyles::set_line_join`. -/
def set_line_join (v : LineJoin) (c : Canvas) : Canvas :=
  { c with state := { c.state with line_join := v } }

/-- `CanvasLineStyles::set_miter_limit`. -/
def set_miter_limit (v : ℚ) (c : Canvas) : Canvas :=
  { c with state := { c.state with miter_limit := v } }

/-- `CanvasLineStyles::set_line_dash`. -/
def set_line_dash (v : List ℚ) (c : Canvas) : Canvas :=
  { c with state := { c.state with line_dash := v } }

/-- `CanvasLineStyles::set_line_dash_offset`. -/
def set_line_dash_offset (v : ℚ) (c : Canvas) : Canvas :=
  { c with state := { c.state with line_dash_offset := v } }

/-- `CanvasFillStrokeStyles::set_fill_style`. -/
def set_fill_style (v : Paint) (c : Canvas) : Canvas :=
  { c with state := { c.state with fill_style := v } }

/-- `CanvasFillStrokeStyles::set_stroke_style`. -/
def set_stroke_style (v : Paint) (c : Canvas) : Canvas :=
  { c with state := { c.state with stroke_style := v } }

/-- `CanvasText::set_font`. -/
def set_font (v : String) (c : Canvas) : Canvas :=
  { c with state := { c.state with font := v } }

/-- `CanvasText::set_text_align`. -/
def set_text_align (v : TextAlign) (c : Canvas) : Canvas :=
  { c with state := { c.state with text_align := v } }

/-- `CanvasText::set_text_baseline`. -/
def set_text_baseline (v : TextBaseline) (c : Canvas) : Canvas :=
  { c with state := { c.state with text_baseline := v } }

/-- `CanvasText::set_direction`. -/
def set_direction (v : Direction) (c : Canvas) : Canvas :=
  { c with state := { c.state with direction := v } }

/-- `CanvasPaths::begin_path`. -/
def begin_path (c : Canvas) : Canvas :=
  { c with current_path := [], current_point := none, subpath_start := none }

/-- `CanvasPaths::close_path` (recording.rs lines 639-645): always appends
`ClosePath`; resets the current point to the subpath start when one exists. -/
def close_path (c : Canvas) : Canvas :=
  { c with current_path := c.current_path ++ [PathCommand.ClosePath]
           current_point := c.subpath_start.or c.current_point }

/-- `CanvasPaths::move_to`. -/
def move_to (x y : ℚ) (c : Canvas) : Canvas :=
  { c with current_path := c.current_path ++ [PathCommand.MoveTo x y]
           subpath_start := some (x, y)
           current_point := some (x, y) }

/-- `CanvasPaths::line_to`: synthesizes `move_to(0,0)` when there is no
current point. -/
def line_to (x y : ℚ) (c : Canvas) : Canvas :=
  let c1 := if c.current_point = none then move_to 0 0 c else c
  { c1 with current_path := c1.current_path ++ [PathCommand.LineTo x y]
            current_point := some (x, y) }

/-- `RecordingCanvas::ensure_subpath` (recording.rs lines 300-305). -/
def ensure_subpath (c : Canvas) : Canvas :=
  if c.current_point = none then move_to 0 0 c else c

/-- `CanvasPaths::bezier_curve_to`. -/
def bezier_curve_to (cp1x cp1y cp2x cp2y x y : ℚ) (c : Canvas) : Canvas :=
  let c1 := ensure_subpath c
  { c1 with current_path := c1.current_path ++ [PathCommand.BezierCurveTo cp1x cp1y cp2x cp2y x y]
            current_point := some (x, y) }

/-- `CanvasPaths::quadratic_curve_to`. -/
def quadratic_curve_to (cpx cpy x y : ℚ) (c : Canvas) : Canvas :=
  let c1 := ensure_subpath c
  { c1 with current_path := c1.current_path ++ [PathCommand.QuadraticCurveTo cpx cpy x y]
            current_point := some (x, y) }

/-- `CanvasPaths::arc` (recording.rs lines 692-715): recorded verbatim, the
current point advanced analytically to the arc end point. -/
def arc (R : RealOps) (x y radius start_angle end_angle : ℚ) (ccw : Bool) (c : Canvas) : Canvas :=
  let c1 := ensure_subpath c
  { c1 with current_path := c1.current_path ++ [PathCommand.Arc x y radius start_angle end_angle ccw]
            current_point := some (x + radius * R.cos end_angle, y + radius * R.sin end_angle) }

/-- `CanvasPaths::arc_to` (recording.rs lines 717-730): when no current point
exists it synthesizes `move_to(x1, y1)`, then records the `ArcTo` verbatim. -/
def arc_to (x1 y1 x2 y2 radius : ℚ) (c : Canvas) : Canvas :=
  let c1 := if c.current_point = none then move_to x1 y1 c else c
  { c1 with current_path := c1.current_path ++ [PathCommand.ArcTo x1 y1 x2 y2 radius]
            current_point := some (x2, y2) }

/-- `CanvasPaths::ellipse` (recording.rs lines 732-762). -/
def ellipse (R : RealOps) (x y radius_x radius_y rotation start_angle end_angle : ℚ)
    (ccw : Bool) (c : Canvas) : Canvas :=
  let c1 := ensure_subpath c
  let ex := radius_x * R.cos end_angle
  let ey := radius_y * R.sin end_angle
  { c1 with current_path :=
      c1.current_path ++ [PathCommand.Ellipse x y radius_x radius_y rotation start_angle end_angle ccw]
            current_point := some (x + ex * R.cos rotation - ey * R.sin rotation,
                                   y + ex * R.sin rotation + ey * R.cos rotation) }

/-- `CanvasPaths::rect`. -/
def rect (x y w h : ℚ) (c : Canvas) : Canvas :=
  { c with current_path := c.current_path ++ [PathCommand.Rect x y w h]
           subpath_start := some (x, y)
           current_point := some (x, y) }

/-- `CanvasPaths::round_rect` (recording.rs lines 771-805): expands the radii
slice to four per-corner values by length, then records the primitive. -/
def round_rect (x y w h : ℚ) (radii : List ℚ) (c : Canvas) : Canvas :=
  let corner : ℚ × ℚ × ℚ × ℚ :=
    match radii with
    | [] => (0, 0, 0, 0)
    | [r0] => (r0, r0, r0, r0)
    | [r0, r1] => (r0, r1, r0, r1)
    | [r0, r1, r2] => (r0, r1, r2, r1)
    | r0 :: r1 :: r2 :: r3 :: _ => (r0, r1, r2, r3)
  { c with current_path := c.current_path ++
      [PathCommand.RoundRect x y w h corner.1 corner.2.1 corner.2.2.1 corner.2.2.2]
           subpath_start := some (x, y)
           current_point := some (x, y) }

/-- `RecordingCanvas::consume_path` (recording.rs lines 328-334). -/
def consume_path (c : Canvas) : RecordedPath × Canvas :=
  (⟨c.current_path⟩,
   { c with current_path := [], current_point := none, subpath_start := none })

/-- `CanvasPaths::fill` (recording.rs lines 807-819): no-op on an empty path,
otherwise consumes the path and records a `FillPath` emission. -/
def fill (rule : FillRule) (c : Canvas) : Canvas :=
  if c.current_path = [] then c
  else
    let pc := consume_path c
    { pc.2 with ops := pc.2.ops ++ [DrawOp.FillPath pc.1 (snapshot pc.2.state) rule] }

/-- `CanvasPaths::stroke` (recording.rs lines 821-832). -/
def stroke (c : Canvas) : Canvas :=
  if c.current_path = [] then c
  else
    let pc := consume_path c
    { pc.2 with ops := pc.2.ops ++ [DrawOp.StrokePath pc.1 (snapshot pc.2.state)] }

/-- `CanvasPaths::clip` (recording.rs lines 834-852): no-op on an empty path,
otherwise consumes the path, installs it (with rule and the live transform)
as the live clip, and records a `Clip` emission whose snapshot already shows
the new clip. -/
def clip (rule : FillRule) (c : Canvas) : Canvas :=
  if c.current_path = [] then c
  else
    let pc := consume_path c
    let clip_state : ClipState := ⟨pc.1, rule, pc.2.state.transform⟩
    let c2 := { pc.2 with state := { pc.2.state with clip := some clip_state } }
    { c2 with ops := c2.ops ++ [DrawOp.Clip pc.1 (snapshot c2.state) rule] }

/-- `CanvasRectangles::fill_rect`. -/
def fill_rect (x y w h : ℚ) (c : Canvas) : Canvas :=
  { c with ops := c.ops ++ [DrawOp.FillRect x y w h (snapshot c.state)] }

/-- `CanvasRectangles::stroke_rect`. -/
def stroke_rect (x y w h : ℚ) (c : Canvas) : Canvas :=
  { c with ops := c.ops ++ [DrawOp.StrokeRect x y w h (snapshot c.state)] }

/-- `CanvasRectangles::clear_rect`. -/
def clear_rect (x y w h : ℚ) (c : Canvas) : Canvas :=
  { c with ops := c.ops ++ [DrawOp.ClearRect x y w h (snapshot c.state)] }

/-- `CanvasText::fill_text`. -/
def fill_text (text : String) (x y : ℚ) (max_width : Option ℚ) (c : Canvas) : Canvas :=
  { c with ops := c.ops ++ [DrawOp.FillText text x y max_width (snapshot c.state)] }

/-- `CanvasText::stroke_text`. -/
def stroke_text (text : String) (x y : ℚ) (max_width : Option ℚ) (c : Canvas) : Canvas :=
  { c with ops := c.ops ++ [DrawOp.StrokeText text x y max_width (snapshot c.state)] }

end RecordingCanvas

/-- The operation language of the recording context: one constructor per
embedded `RecordingCanvas` trait method (image operations aside, which no
claim exercises). -/
inductive CanvasOp where
  | save
  | restore
  | reset
  | set_global_alpha (v : ℚ)
  | set_global_composite_operation (v : CompositeOperation)
  | set_image_smoothing_enabled (v : Bool)
  | set_image_smoothing_quality (v : ImageSmoothingQuality)
  | set_shadow_offset_x (v : ℚ)
  | set_shadow_offset_y (v : ℚ)
  | set_shadow_blur (v : ℚ)
  | set_shadow_color (v : String)
  | set_line_width (v : ℚ)
  | set_line_cap (v : LineCap)
  | set_line_join (v : LineJoin)
  | set_miter_limit (v : ℚ)
  | set_line_dash (v : List ℚ)
  | set_line_dash_offset (v : ℚ)
  | set_fill_style (v : Paint)
  | set_stroke_style (v : Paint)
  | set_font (v : String)
  | set_text_align (v : TextAlign)
  | set_text_baseline (v : TextBaseline)
  | set_direction (v : Direction)
  | scale (x y : ℚ)
  | rotate (radians : ℚ)
  | translate (x y : ℚ)
  | transform (a b c d e f : ℚ)
  | set_transform (a b c d e f : ℚ)
  | reset_transform
  | begin_path
  | close_path
  | move_to (x y : ℚ)
  | line_to (x y : ℚ)
  | bezier_curve_to (cp1x cp1y cp2x cp2y x y : ℚ)
  | quadratic_curve_to (cpx cpy x y : ℚ)
  | arc (x y radius start_angle end_angle : ℚ) (ccw : Bool)
  | arc_to (x1 y1 x2 y2 radius : ℚ)
  | ellipse (x y radius_x radius_y rotation start_angle end_angle : ℚ) (ccw : Bool)
  | rect (x y w h : ℚ)
  | round_rect (x y w h : ℚ) (radii : List ℚ)
  | fill (rule : FillRule)
  | stroke
  | clip (rule : FillRule)
  | fill_rect (x y w h : ℚ)
  | stroke_rect (x y w h : ℚ)
  | clear_rect (x y w h : ℚ)
  | fill_text (text : String) (x y : ℚ) (max_width : Option ℚ)
  | stroke_text (text : String) (x y : ℚ) (max_width : Option ℚ)

/-- Interpret one operation on the recording canvas. -/
def applyOp (R : RealOps) : CanvasOp → RecordingCanvas.Canvas → RecordingCanvas.Canvas
  | CanvasOp.save => RecordingCanvas.save
  | CanvasOp.restore => RecordingCanvas.restore
  | CanvasOp.reset => RecordingCanvas.reset
  | CanvasOp.set_global_alpha v => RecordingCanvas.set_global_alpha v
  | CanvasOp.set_global_composite_operation v => RecordingCanvas.set_global_composite_operation v
  | CanvasOp.set_image_smoothing_enabled v => RecordingCanvas.set_image_smoothing_enabled v
  | CanvasOp.set_image_smoothing_quality v => RecordingCanvas.set_image_smoothing_quality v
  | CanvasOp.set_shadow_offset_x v => RecordingCanvas.set_shadow_offset_x v
  | CanvasOp.set_shadow_offset_y v => RecordingCanvas.set_shadow_offset_y v
  | CanvasOp.set_shadow_blur v => RecordingCanvas.set_shadow_blur v
  | CanvasOp.set_shadow_color v => RecordingCanvas.set_shadow_color v
  | CanvasOp.set_line_width v => RecordingCanvas.set_line_width v
  | CanvasOp.set_line_cap v => RecordingCanvas.set_line_cap v
  | CanvasOp.set_line_join v => RecordingCanvas.set_line_join v
  | CanvasOp.set_miter_limit v => RecordingCanvas.set_miter_limit v
  | CanvasOp.set_line_dash v => RecordingCanvas.set_line_dash v
  | CanvasOp.set_line_dash_offset v => RecordingCanvas.set_line_dash_offset v
  | CanvasOp.set_fill_style v => RecordingCanvas.set_fill_style v
  | CanvasOp.set_stroke_style v => RecordingCanvas.set_stroke_style v
  | CanvasOp.set_font v => RecordingCanvas.set_font v
  | CanvasOp.set_text_align v => RecordingCanvas.set_text_align v
  | CanvasOp.set_text_baseline v => RecordingCanvas.set_text_baseline v
  | CanvasOp.set_direction v => RecordingCanvas.set_direction v
  | CanvasOp.scale x y => RecordingCanvas.scale x y
  | CanvasOp.rotate radians => RecordingCanvas.rotate R radians
  | CanvasOp.translate x y => RecordingCanvas.translate x y
  | CanvasOp.transform a b c d e f => RecordingCanvas.transform a b c d e f
  | CanvasOp.set_transform a b c d e f => RecordingCanvas.set_transform a b c d e f
  | CanvasOp.reset_transform => RecordingCanvas.reset_transform
  | CanvasOp.begin_path => RecordingCanvas.begin_path
  | CanvasOp.close_path => RecordingCanvas.close_path
  | CanvasOp.move_to x y => RecordingCanvas.move_to x y
  | CanvasOp.line_to x y => RecordingCanvas.line_to x y
  | CanvasOp.bezier_curve_to a b c d x y => RecordingCanvas.bezier_curve_to a b c d x y
  | CanvasOp.quadratic_curve_to cpx cpy x y => RecordingCanvas.quadratic_curve_to cpx cpy x y
  | CanvasOp.arc x y r a1 a2 ccw => RecordingCanvas.arc R x y r a1 a2 ccw
  | CanvasOp.arc_to x1 y1 x2 y2 r => RecordingCanvas.arc_to x1 y1 x2 y2 r
  | CanvasOp.ellipse x y rx ry rot a1 a2 ccw => RecordingCanvas.ellipse R x y rx ry rot a1 a2 ccw
  | CanvasOp.rect x y w h => RecordingCanvas.rect x y w h
  | CanvasOp.round_rect x y w h radii => RecordingCanvas.round_rect x y w h radii
  | CanvasOp.fill rule => RecordingCanvas.fill rule
  | CanvasOp.stroke => RecordingCanvas.stroke
  | CanvasOp.clip rule => RecordingCanvas.clip rule
  | CanvasOp.fill_rect x y w h => RecordingCanvas.fill_rect x y w h
  | CanvasOp.stroke_rect x y w h => RecordingCanvas.stroke_rect x y w h
  | CanvasOp.clear_rect x y w h => RecordingCanvas.clear_rect x y w h
  | CanvasOp.fill_text t x y mw => RecordingCanvas.fill_text t x y mw
  | CanvasOp.stroke_text t x y mw => RecordingCanvas.stroke_text t x y mw

/-- Run a list of operations left to right. -/
def runOps (R : RealOps) (ws : List CanvasOp) (c : RecordingCanvas.Canvas) :
    RecordingCanvas.Canvas :=
  ws.foldl (fun acc op => applyOp R op acc) c

/-- Recognizer for `save`. -/
def isSave : CanvasOp → Bool
  | CanvasOp.save => true
  | _ => false

/-- Recognizer for `restore`. -/
def isRestore : CanvasOp → Bool
  | CanvasOp.restore => true
  | _ => false

/-- Recognizer for the six transform operations of `CanvasTransforms`. -/
def isTransformOp : CanvasOp → Bool
  | CanvasOp.scale _ _ => true
  | CanvasOp.rotate _ => true
  | CanvasOp.translate _ _ => true
  | CanvasOp.transform _ _ _ _ _ _ => true
  | CanvasOp.set_transform _ _ _ _ _ _ => true
  | CanvasOp.reset_transform => true
  | _ => false

/-- Operation sequences in which every `restore` has a matching earlier
`save` in the same sequence and vice versa (Dyck-style bracketing, arbitrary
other operations in between). -/
inductive BalancedOps : List CanvasOp → Prop where
  | nil : BalancedOps []
  | cons_other {op : CanvasOp} {ws : List CanvasOp} :
      isSave op = false → isRestore op = false → BalancedOps ws → BalancedOps (op :: ws)
  | wrap {ws1 ws2 : List CanvasOp} :
      BalancedOps ws1 → BalancedOps ws2 →
      BalancedOps (CanvasOp.save :: ws1 ++ CanvasOp.restore :: ws2)

/-- Tolerance `1e-9` used by the geometry code. -/
def eps9 : ℚ := 1 / 1000000000

/-- Tolerance `1e-6` used for the collinearity test. -/
def eps6 : ℚ := 1 / 1000000

/-- Tolerance `1e-12` used by the arc-segmentation loop. -/
def eps12 : ℚ := 1 / 1000000000000

/-- src/error.rs `LignumError`, restricted to the unsupported-operation
shape the SVG backend produces (`SvgCanvas::not_supported`). -/
inductive LErr where
  | notSupported (op : String)
deriving DecidableEq

namespace SvgCanvas

/-- One command of the SVG path `d` string (`push_path` pushes exactly one
per call): `M x y`, `L x y`, `C ...`, `Q ...`,
`A r r 0 largeArc sweep x y`, `Z`. -/
inductive SvgCmd where
  | M (x y : ℚ)
  | L (x y : ℚ)
  | C (cp1x cp1y cp2x cp2y x y : ℚ)
  | Q (cpx cpy x y : ℚ)
  | A (radius : ℚ) (large_arc sweep : ℕ) (x y : ℚ)
  | Z
deriving DecidableEq

/-- One item written to the streaming XML writer, with the attributes the
source computes for it (serialisation itself is a collaborator concern). -/
inductive SvgEvent where
  | decl
  | svgRoot (width height : ℚ)
  | svgEnd
  | defsGradient (id : String) (g : CanvasGradient)
  | defsPattern (id : String) (p : CanvasPattern)
  | fillPathElem (d : List SvgCmd) (fill : String) (rule : FillRule)
      (opacity : Option ℚ) (tf : Option M6)
  | strokePathElem (d : List SvgCmd) (stroke : String) (stroke_width : ℚ)
      (cap : LineCap) (join : LineJoin) (opacity : Option ℚ)
      (dash : Option (List ℚ)) (dash_offset : Option ℚ) (tf : Option M6)
deriving DecidableEq

/-- src/backends/svg.rs `SvgState` (no clip field: the SVG backend keeps no
clip state). -/
structure SvgState where
  global_alpha : ℚ
  global_composite_operation : CompositeOperation
  image_smoothing_enabled : Bool
  image_smoothing_quality : ImageSmoothingQuality
  shadow_offset_x : ℚ
  shadow_offset_y : ℚ
  shadow_blur : ℚ
  shadow_color : String
  line_width : ℚ
  line_cap : LineCap
  line_join : LineJoin
  miter_limit : ℚ
  line_dash : List ℚ
  line_dash_offset : ℚ
  fill_style : Paint
  stroke_style : Paint
  font : String
  text_align : TextAlign
  text_baseline : TextBaseline
  direction : Direction
  transform : M6
deriving DecidableEq

/-- src/backends/svg.rs `impl Default for SvgState`. -/
def SvgState.default : SvgState :=
  { global_alpha := 1
    global_composite_operation := CompositeOperation.SourceOver
    image_smoothing_enabled := true
    image_smoothing_quality := ImageSmoothingQuality.Low
    shadow_offset_x := 0
    shadow_offset_y := 0
    shadow_blur := 0
    shadow_color := ("rgba(0,0,0,0)")
    line_width := 1
    line_cap := LineCap.Butt
    line_join := LineJoin.Miter
    miter_limit := 10
    line_dash := []
    line_dash_offset := 0
    fill_style := Paint.Color ("#000")
    stroke_style := Paint.Color ("#000")
    font := ("10px sans-serif")
    text_align := TextAlign.Start
    text_baseline := TextBaseline.Alphabetic
    direction := Direction.Inherit
    transform := M6.id }

/-- src/backends/svg.rs `SvgCanvas` fields. -/
structure Canvas where
  events : List SvgEvent
  open_root : Bool
  width : ℚ
  height : ℚ
  current_path : List SvgCmd
  current_point : Option (ℚ × ℚ)
  subpath_start : Option (ℚ × ℚ)
  state : SvgState
  stack : List SvgState
  gradient_counter : ℕ
  pattern_counter : ℕ
deriving DecidableEq

/-- `SvgCanvas::new`: emits the XML declaration and the root `svg` element. -/
def new (width height : ℚ) : Canvas :=
  { events := [SvgEvent.decl, SvgEvent.svgRoot width height]
    open_root := true
    width := width
    height := height
    current_path := []
    current_point := none
    subpath_start := none
    state := SvgState.default
    stack := []
    gradient_counter := 0
    pattern_counter := 0 }

/-- `SvgCanvas::finish`: closes the root element when still open. -/
def finish (c : Canvas) : Canvas :=
  if c.open_root then { c with events := c.events ++ [SvgEvent.svgEnd], open_root := false }
  else c

/-- `SvgCanvas::push_path`: appends one command to the `d` string. -/
def push_path (cmd : SvgCmd) (c : Canvas) : Canvas :=
  { c with current_path := c.current_path ++ [cmd] }

/-- `SvgCanvas::gradient_paint`: assigns the next `gradN` id, writes the
gradient definition, returns the `url(#id)` reference. -/
def gradient_paint (g : CanvasGradient) (c : Canvas) : Canvas × String :=
  let id := ("grad") ++ toString c.gradient_counter
  ({ c with gradient_counter := c.gradient_counter + 1
            events := c.events ++ [SvgEvent.defsGradient id g] },
   ("url(#") ++ id ++ (")"))

/-- `SvgCanvas::pattern_paint`. -/
def pattern_paint (p : CanvasPattern) (c : Canvas) : Canvas × String :=
  let id := ("pat") ++ toString c.pattern_counter
  ({ c with pattern_counter := c.pattern_counter + 1
            events := c.events ++ [SvgEvent.defsPattern id p] },
   ("url(#") ++ id ++ (")"))

/-- `SvgCanvas::paint_to_str`. -/
def paint_to_str (p : Paint) (c : Canvas) : Canvas × String :=
  match p with
  | Paint.Color s => (c, s)
  | Paint.Gradient g => gradient_paint g c
  | Paint.Pattern pt => pattern_paint pt c

/-- `SvgCanvas::flush_path_fill` (svg.rs lines 232-255): early return on an
empty path, otherwise resolve the fill paint and emit one `path` element. -/
def flush_path_fill (rule : FillRule) (c : Canvas) : Canvas :=
  if c.current_path = [] then c
  else
    let pc := paint_to_str c.state.fill_style c
    let opacity : Option ℚ := if c.state.global_alpha < 1 then some c.state.global_alpha else none
    let tf : Option M6 := if c.state.transform = M6.id then none else some c.state.transform
    { pc.1 with events :=
        pc.1.events ++ [SvgEvent.fillPathElem c.current_path pc.2 rule opacity tf] }

/-- `SvgCanvas::flush_path_stroke` (svg.rs lines 257-305). -/
def flush_path_stroke (c : Canvas) : Canvas :=
  if c.current_path = [] then c
  else
    let pc := paint_to_str c.state.stroke_style c
    let opacity : Option ℚ := if c.state.global_alpha < 1 then some c.state.global_alpha else none
    let dash : Option (List ℚ) := if c.state.line_dash = [] then none else some c.state.line_dash
    let doff : Option ℚ := if c.state.line_dash_offset = 0 then none else some c.state.line_dash_offset
    let tf : Option M6 := if c.state.transform = M6.id then none else some c.state.transform
    { pc.1 with events :=
        pc.1.events ++ [SvgEvent.strokePathElem c.current_path pc.2 c.state.line_width
          c.state.line_cap c.state.line_join opacity dash doff tf] }

/-- `CanvasState::save` for the SVG backend. -/
def save (c : Canvas) : Canvas :=
  { c with stack := c.state :: c.stack }

/-- `CanvasState::restore` for the SVG backend. -/
def restore (c : Canvas) : Canvas :=
  match c.stack with
  | [] => c
  | s :: rest => { c with state := s, stack := rest }

/-- `CanvasState::reset` for the SVG backend (svg.rs lines 472-475): only the
live state is replaced. -/
def reset (c : Canvas) : Canvas :=
  { c with state := SvgState.default }

/-- `CanvasPaths::begin_path` for the SVG backend. -/
def begin_path (c : Canvas) : Canvas :=
  { c with current_path := [], current_point := none, subpath_start := none }

/-- `CanvasPaths::close_path` for the SVG backend (svg.rs lines 765-771):
always pushes `Z`; restores the current point when a subpath start exists. -/
def close_path (c : Canvas) : Canvas :=
  { c with current_path := c.current_path ++ [SvgCmd.Z]
           current_point := c.subpath_start.or c.current_point }

/-- `CanvasPaths::move_to` for the SVG backend. -/
def move_to (x y : ℚ) (c : Canvas) : Canvas :=
  { c with current_path := c.current_path ++ [SvgCmd.M x y]
           subpath_start := some (x, y)
           current_point := some (x, y) }

/-- `CanvasPaths::line_to` for the SVG backend. -/
def line_to (x y : ℚ) (c : Canvas) : Canvas :=
  let c1 := if c.current_point = none then move_to 0 0 c else c
  { c1 with current_path := c1.current_path ++ [SvgCmd.L x y]
            current_point := some (x, y) }

/-- `SvgCanvas::append_arc_segments` delta-normalisation loops
(`while delta < 0 { delta += tau }`), modelled with explicit fuel. -/
def normDeltaUp (fuel : ℕ) (tau delta : ℚ) : ℚ :=
  match fuel with
  | 0 => delta
  | n + 1 => if delta < 0 then normDeltaUp n tau (delta + tau) else delta

/-- Mirror loop `while delta > 0 { delta -= tau }`. -/
def normDeltaDown (fuel : ℕ) (tau delta : ℚ) : ℚ :=
  match fuel with
  | 0 => delta
  | n + 1 => if 0 < delta then normDeltaDown n tau (delta - tau) else delta

/-- The segment-emission loop of `SvgCanvas::append_arc_segments`, with fuel. -/
def arcSegLoop (R : RealOps) (fuel : ℕ) (cx cy radius : ℚ)
    (remaining current_angle : ℚ) (c : Canvas) : Canvas :=
  match fuel with
  | 0 => c
  | n + 1 =>
    if eps12 < |remaining| then
      let step := if R.pi < |remaining| then (if remaining < 0 then -R.pi else R.pi) else remaining
      let next_angle := current_angle + step
      let end_x := cx + radius * R.cos next_angle
      let end_y := cy + radius * R.sin next_angle
      let large_arc : ℕ := if R.pi - eps9 ≤ |step| then 1 else 0
      let sweep : ℕ := if 0 ≤ step then 1 else 0
      let seg := [SvgCmd.A radius large_arc sweep end_x end_y]
      let c1 := { c with current_path := c.current_path ++ seg
                         current_point := some (end_x, end_y) }
      arcSegLoop R n cx cy radius (remaining - step) next_angle c1
    else c

/-- `SvgCanvas::append_arc_segments` (svg.rs lines 325-382). -/
def append_arc_segments (R : RealOps) (fuel : ℕ) (cx cy radius a1 a2 : ℚ)
    (ccw : Bool) (c : Canvas) : Canvas :=
  let tau := R.pi * 2
  let delta0 := a2 - a1
  let delta := if ccw then normDeltaDown fuel tau delta0 else normDeltaUp fuel tau delta0
  if |delta| < eps12 then c
  else arcSegLoop R fuel cx cy radius delta a1 c

/-- `CanvasPaths::arc_to` for the SVG backend (svg.rs lines 844-897): with no
current point it only moves to `p1`; with radius zero, `p0` within `1e-9` of
`p1`, or `p1` within `1e-9` of `p2` it degenerates to `line_to(p1)`;
otherwise it performs the tangent-arc-join construction. -/
def arc_to (R : RealOps) (fuel : ℕ) (x1 y1 x2 y2 radius : ℚ) (c : Canvas) : Canvas :=
  match c.current_point with
  | none => move_to x1 y1 c
  | some (x0, y0) =>
    if radius = 0 ∨ (|x0 - x1| < eps9 ∧ |y0 - y1| < eps9)
        ∨ (|x1 - x2| < eps9 ∧ |y1 - y2| < eps9) then
      line_to x1 y1 c
    else
      let v1 := (x0 - x1, y0 - y1)
      let v2 := (x2 - x1, y2 - y1)
      let len1 := R.sqrt (v1.1 * v1.1 + v1.2 * v1.2)
      let len2 := R.sqrt (v2.1 * v2.1 + v2.2 * v2.2)
      if len1 < eps9 ∨ len2 < eps9 then
        line_to x1 y1 c
      else
        let v1n := (v1.1 / len1, v1.2 / len1)
        let v2n := (v2.1 / len2, v2.2 / len2)
        let dot := max (-1) (min 1 (v1n.1 * v2n.1 + v1n.2 * v2n.2))
        if |1 - dot| < eps6 ∨ |1 + dot| < eps6 then
          line_to x1 y1 c
        else
          let angle := R.acos dot
          let tan_half := R.tan (angle / 2)
          if |tan_half| < eps9 then
            line_to x1 y1 c
          else
            let dist := radius / tan_half
            let tp1 := (x1 + v1n.1 * dist, y1 + v1n.2 * dist)
            let tp2 := (x1 + v2n.1 * dist, y1 + v2n.2 * dist)
            let cross := v1n.1 * v2n.2 - v1n.2 * v2n.1
            let n1 := if cross < 0 then (v1n.2, -v1n.1) else (-v1n.2, v1n.1)
            let center := (tp1.1 + n1.1 * radius, tp1.2 + n1.2 * radius)
            let start_ang := R.atan2 (tp1.2 - center.2) (tp1.1 - center.1)
            let end_ang := R.atan2 (tp2.2 - center.2) (tp2.1 - center.1)
            let c1 := line_to tp1.1 tp1.2 c
            append_arc_segments R fuel center.1 center.2 radius start_ang end_ang
              (decide (cross < 0)) c1

/-- `CanvasPaths::fill` for the SVG backend. -/
def fill (rule : FillRule) (c : Canvas) : Except LErr Canvas :=
  Except.ok (flush_path_fill rule c)

/-- `CanvasPaths::stroke` for the SVG backend. -/
def stroke (c : Canvas) : Except LErr Canvas :=
  Except.ok (flush_path_stroke c)

/-- `CanvasPaths::clip` for the SVG backend (svg.rs lines 946-948): always an
unsupported-operation error, the canvas untouched. -/
def clip (_rule : FillRule) (_c : Canvas) : Except LErr Canvas :=
  Except.error (LErr.notSupported ("clip"))

end SvgCanvas

namespace CairoCanvas

/-- One drawing call issued to the external `cairo::Context` (modelled as a
call trace, see header). -/
inductive CairoCmd where
  | new_path
  | move_to (x y : ℚ)
  | line_to (x y : ℚ)
  | curve_to (c1x c1y c2x c2y x y : ℚ)
  | arc (cx cy radius a1 a2 : ℚ)
  | arcNegative (cx cy radius a1 a2 : ℚ)
  | rectangle (x y w h : ℚ)
  | close_path
deriving DecidableEq

/-- src/backends/cairo.rs `CairoCanvas` fields, the cairo context replaced by
its call trace. -/
structure Canvas where
  ctx : List CairoCmd
  fill_style : Paint
  stroke_style : Paint
  global_alpha : ℚ
  composite : CompositeOperation
  shadow_offset_x : ℚ
  shadow_offset_y : ℚ
  shadow_blur : ℚ
  shadow_color : String
  image_smoothing_enabled : Bool
  image_smoothing_quality : ImageSmoothingQuality
  line_dash_offset : ℚ
  font : String
  text_align : TextAlign
  text_baseline : TextBaseline
  direction : Direction
deriving DecidableEq

/-- `CanvasPaths::begin_path` for the cairo backend: `ctx.new_path()`. -/
def begin_path (c : Canvas) : Canvas :=
  { c with ctx := c.ctx ++ [CairoCmd.new_path] }

/-- `CanvasPaths::close_path` for the cairo backend: `ctx.close_path()`. -/
def close_path (c : Canvas) : Canvas :=
  { c with ctx := c.ctx ++ [CairoCmd.close_path] }

/-- `CanvasPaths::round_rect` for the cairo backend (cairo.rs lines 604-631):
takes the first supplied radius (0 when absent), clamps it to half the
width and half the height, and flattens the rounded rectangle into four
corner arcs between `begin_path` and `close_path`. -/
def round_rect (R : RealOps) (x y w h : ℚ) (radii : List ℚ) (c : Canvas) : Canvas :=
  let r := (radii.head?).getD 0
  let r := min (min r (w / 2)) (h / 2)
  let right := x + w
  let bottom := y + h
  let c1 := begin_path c
  let c2 := { c1 with ctx := c1.ctx ++
    [CairoCmd.arc (x + r) (y + r) r R.pi (3 / 2 * R.pi),
     CairoCmd.arc (right - r) (y + r) r (3 / 2 * R.pi) 0,
     CairoCmd.arc (right - r) (bottom - r) r 0 (1 / 2 * R.pi),
     CairoCmd.arc (x + r) (bottom - r) r (1 / 2 * R.pi) R.pi] }
  close_path c2

end CairoCanvas

/-- Computing `restore` once the stack is known to be non-empty. -/
theorem restore_cons {c : RecordingCanvas.Canvas} {s : RecorderState}
    {rest : List RecorderState} (h : c.stack = s :: rest) :
    RecordingCanvas.restore c = { c with state := s, stack := rest } := by
  unfold RecordingCanvas.restore
  rw [h]

/-- `restore` on an empty stack changes nothing. -/
theorem restore_nil {c : RecordingCanvas.Canvas} (h : c.stack = []) :
    RecordingCanvas.restore c = c := by
  unfold RecordingCanvas.restore
  rw [h]

/-- Every operation other than `save` and `restore` leaves the saved-state
stack untouched. -/
theorem applyOp_stack_of_other (R : RealOps) (op : CanvasOp)
    (c : RecordingCanvas.Canvas) (h1 : isSave op = false) (h2 : isRestore op = false) :
    (applyOp R op c).stack = c.stack := by
  cases op
  case save => simp [isSave] at h1
  case restore => simp [isRestore] at h2
  all_goals
    first
      | rfl
      | (simp only [applyOp, RecordingCanvas.fill, RecordingCanvas.stroke,
            RecordingCanvas.clip, RecordingCanvas.line_to, RecordingCanvas.arc_to,
            RecordingCanvas.ensure_subpath, RecordingCanvas.bezier_curve_to,
            RecordingCanvas.quadratic_curve_to, RecordingCanvas.arc,
            RecordingCanvas.ellipse]
         split <;> rfl)

/-- Running a balanced operation block leaves the saved-state stack exactly
as it was. -/
theorem runOps_stack_of_balanced (R : RealOps) {ws : List CanvasOp}
    (h : BalancedOps ws) : ∀ c, (runOps R ws c).stack = c.stack := by
  induction h with
  | nil => intro c; rfl
  | @cons_other op ws h1 h2 _ ih =>
      intro c
      have step : runOps R (op :: ws) c = runOps R ws (applyOp R op c) := rfl
      rw [step, ih, applyOp_stack_of_other R op c h1 h2]
  | @wrap ws1 ws2 _ _ ih1 ih2 =>
      intro c
      have hsplit : runOps R (CanvasOp.save :: ws1 ++ CanvasOp.restore :: ws2) c
          = runOps R ws2 (applyOp R CanvasOp.restore
              (runOps R ws1 (applyOp R CanvasOp.save c))) := by
        simp [runOps, List.foldl_append]
      rw [hsplit, ih2]
      have hstk : (runOps R ws1 (applyOp R CanvasOp.save c)).stack
          = c.state :: c.stack := ih1 (applyOp R CanvasOp.save c)
      show (RecordingCanvas.restore (runOps R ws1 (applyOp R CanvasOp.save c))).stack
          = c.stack
      rw [restore_cons hstk]

/-- Each of the six transform operations leaves the live clip untouched. -/
theorem applyOp_clip_of_transform (R : RealOps) (op : CanvasOp)
    (c : RecordingCanvas.Canvas) (h : isTransformOp op = true) :
    (applyOp R op c).state.clip = c.state.clip := by
  cases op <;> first | rfl | simp [isTransformOp] at h

/-- Running any sequence of transform operations leaves the live clip
untouched. -/
theorem runOps_clip_of_transforms (R : RealOps) (ts : List CanvasOp)
    (h : ∀ op ∈ ts, isTransformOp op = true) :
    ∀ c, (runOps R ts c).state.clip = c.state.clip := by
  induction ts with
  | nil => intro c; rfl
  | cons op rest ih =>
      intro c
      have step : runOps R (op :: rest) c = runOps R rest (applyOp R op c) := rfl
      rw [step, ih fun o ho => h o (List.mem_cons_of_mem op ho),
        applyOp_clip_of_transform R op c (h op (List.mem_cons_self op rest))]

/-- C1: for every balanced block of operations between a `save` and its
matching `restore`, the `restore` makes the live graphics state equal to the
snapshot pushed by that `save` and leaves the saved-state stack as it was
before the `save`; and `restore` on an empty stack changes nothing (and,
being total, never errors). -/
theorem save_restore_stack_discipline (R : RealOps) (c : RecordingCanvas.Canvas)
    (ws : List CanvasOp) (hws : BalancedOps ws) :
    ((applyOp R CanvasOp.restore (runOps R ws (applyOp R CanvasOp.save c))).state = c.state
      ∧ (applyOp R CanvasOp.restore (runOps R ws (applyOp R CanvasOp.save c))).stack = c.stack)
    ∧ ∀ d : RecordingCanvas.Canvas, d.stack = [] → applyOp R CanvasOp.restore d = d := by
  refine ⟨?_, fun d hd => restore_nil hd⟩
  have hstk : (runOps R ws (applyOp R CanvasOp.save c)).stack = c.state :: c.stack :=
    runOps_stack_of_balanced R hws (applyOp R CanvasOp.save c)
  show (RecordingCanvas.restore (runOps R ws (applyOp R CanvasOp.save c))).state = c.state
    ∧ (RecordingCanvas.restore (runOps R ws (applyOp R CanvasOp.save c))).stack = c.stack
  rw [restore_cons hstk]
  exact ⟨rfl, rfl⟩

/-- Witness for C1 at a concrete balanced block (mutate alpha, translate). -/
theorem save_restore_stack_discipline_witness :
    (applyOp trivOps CanvasOp.restore (runOps trivOps
        [CanvasOp.set_global_alpha (1 / 2), CanvasOp.translate 3 4]
        (applyOp trivOps CanvasOp.save RecordingCanvas.new))).state
      = RecordingCanvas.new.state :=
  (save_restore_stack_discipline trivOps RecordingCanvas.new
    [CanvasOp.set_global_alpha (1 / 2), CanvasOp.translate 3 4]
    (BalancedOps.cons_other rfl rfl
      (BalancedOps.cons_other rfl rfl BalancedOps.nil))).1.1

/-- C2: `translate(a,b)` followed by `scale(sx,sy)` leaves the live transform
equal to the direct composition (via the spec section 3 formula) of the two
elementary matrices onto the prior transform, for arbitrary rationals; in
particular `translate(5,6); scale(2,3)` on a fresh context yields the live
transform `(2,0,0,3,5,6)`. -/
theorem translate_then_scale_matches_composition
    (c : RecordingCanvas.Canvas) (a b sx sy : ℚ) :
    ((RecordingCanvas.scale sx sy (RecordingCanvas.translate a b c)).state.transform
        = composeSpec c.state.transform (composeSpec ⟨1, 0, 0, 1, a, b⟩ ⟨sx, 0, 0, sy, 0, 0⟩))
    ∧ (RecordingCanvas.scale 2 3 (RecordingCanvas.translate 5 6 RecordingCanvas.new)).state.transform
        = ⟨2, 0, 0, 3, 5, 6⟩ := by
  constructor
  · simp only [RecordingCanvas.scale, RecordingCanvas.translate,
      RecordingCanvas.multiply_transform, composeSpec]
    ext <;> ring
  · simp only [RecordingCanvas.scale, RecordingCanvas.translate,
      RecordingCanvas.multiply_transform, RecordingCanvas.new,
      RecorderState.default, M6.id]
    ext <;> norm_num

/-- C10: `save` and `restore` never modify the in-progress path: accumulated
primitives, current point and subpath start are identical across either
call. -/
theorem save_restore_preserve_path (c : RecordingCanvas.Canvas) :
    (RecordingCanvas.save c).current_path = c.current_path
    ∧ (RecordingCanvas.save c).current_point = c.current_point
    ∧ (RecordingCanvas.save c).subpath_start = c.subpath_start
    ∧ (RecordingCanvas.restore c).current_path = c.current_path
    ∧ (RecordingCanvas.restore c).current_point = c.current_point
    ∧ (RecordingCanvas.restore c).subpath_start = c.subpath_start := by
  refine ⟨rfl, rfl, rfl, ?_, ?_, ?_⟩ <;>
    cases hs : c.stack <;> simp [RecordingCanvas.restore, hs]

/-- C3 (amended): in the SVG backend — the backend that performs the
tangent-arc-join flattening — `arc_to` with a defined current point and
radius zero, `p0 = p1`, or `p1 = p2` appends exactly one `L p1` command and
nothing else (advancing the current point to `p1`); the recording backend
instead records the `ArcTo` request itself as a single verbatim primitive. -/
theorem arc_to_degenerate_line (R : RealOps) (fuel : ℕ) (d : SvgCanvas.Canvas)
    (x0 y0 x1 y1 x2 y2 r : ℚ) (hp : d.current_point = some (x0, y0))
    (hdeg : r = 0 ∨ (x0 = x1 ∧ y0 = y1) ∨ (x1 = x2 ∧ y1 = y2)) :
    (SvgCanvas.arc_to R fuel x1 y1 x2 y2 r d
      = { d with current_path := d.current_path ++ [SvgCanvas.SvgCmd.L x1 y1]
                 current_point := some (x1, y1) })
    ∧ ∀ (c : RecordingCanvas.Canvas) (a1 b1 a2 b2 rr : ℚ), c.current_point ≠ none →
        RecordingCanvas.arc_to a1 b1 a2 b2 rr c
          = { c with current_path := c.current_path ++ [PathCommand.ArcTo a1 b1 a2 b2 rr]
                     current_point := some (a2, b2) } := by
  constructor
  · have hcond : r = 0 ∨ (|x0 - x1| < eps9 ∧ |y0 - y1| < eps9)
        ∨ (|x1 - x2| < eps9 ∧ |y1 - y2| < eps9) := by
      have heps : (0 : ℚ) < eps9 := by norm_num [eps9]
      rcases hdeg with h0 | ⟨hx, hy⟩ | ⟨hx, hy⟩
      · exact Or.inl h0
      · exact Or.inr (Or.inl (by simp [hx, hy, heps]))
      · exact Or.inr (Or.inr (by simp [hx, hy, heps]))
    unfold SvgCanvas.arc_to
    rw [hp]
    simp only [if_pos hcond]
    unfold SvgCanvas.line_to
    rw [hp]
    simp
  · intro c a1 b1 a2 b2 rr hc
    unfold RecordingCanvas.arc_to
    simp only [if_neg hc]

/-- Witness for C3 at a concrete degenerate call (radius zero). -/
theorem arc_to_degenerate_line_witness :
    SvgCanvas.arc_to trivOps 0 7 8 9 10 0 (SvgCanvas.move_to 3 4 (SvgCanvas.new 100 100))
      = { SvgCanvas.move_to 3 4 (SvgCanvas.new 100 100) with
            current_path := (SvgCanvas.move_to 3 4 (SvgCanvas.new 100 100)).current_path
              ++ [SvgCanvas.SvgCmd.L 7 8]
            current_point := some (7, 8) } :=
  (arc_to_degenerate_line trivOps 0 (SvgCanvas.move_to 3 4 (SvgCanvas.new 100 100))
    3 4 7 8 9 10 0 rfl (Or.inl rfl)).1

/-- Counterexample to C3 as stated: on the recording context, with a defined
current point and radius `0`, `arc_to` appends a single `ArcTo` primitive —
not the `LineTo(p1)` the claim requires of every context. -/
theorem arc_to_degenerate_line_counterexample :
    ((RecordingCanvas.arc_to 1 1 2 2 0
        (RecordingCanvas.move_to 0 0 RecordingCanvas.new)).current_path
      = [PathCommand.MoveTo 0 0, PathCommand.ArcTo 1 1 2 2 0])
    ∧ (RecordingCanvas.arc_to 1 1 2 2 0
        (RecordingCanvas.move_to 0 0 RecordingCanvas.new)).current_path
      ≠ (RecordingCanvas.move_to 0 0 RecordingCanvas.new).current_path
        ++ [PathCommand.LineTo 1 1] := by
  constructor
  · simp [RecordingCanvas.arc_to, RecordingCanvas.move_to, RecordingCanvas.new]
  · simp [RecordingCanvas.arc_to, RecordingCanvas.move_to, RecordingCanvas.new]

/-- C4 (amended): the recording backend's `reset` replaces the live state
with the default state and clears the in-progress path, the current point
and the subpath start, while leaving the save/restore stack (and recorded
emissions) untouched; the SVG backend's `reset` only replaces the live
state, leaving path tracking and stack untouched. -/
theorem reset_scope (c : RecordingCanvas.Canvas) (d : SvgCanvas.Canvas) :
    RecordingCanvas.reset c
      = { c with state := RecorderState.default
                 current_path := []
                 current_point := none
                 subpath_start := none }
    ∧ SvgCanvas.reset d = { d with state := SvgCanvas.SvgState.default } :=
  ⟨rfl, rfl⟩

/-- Counterexample to C4 as stated: after `move_to(1,2)` on the SVG context,
`reset` leaves the in-progress path (and its current point) in place instead
of clearing them. -/
theorem reset_scope_counterexample :
    ((SvgCanvas.reset (SvgCanvas.move_to 1 2 (SvgCanvas.new 100 100))).current_path
      = [SvgCanvas.SvgCmd.M 1 2])
    ∧ (SvgCanvas.reset (SvgCanvas.move_to 1 2 (SvgCanvas.new 100 100))).current_path ≠ []
    ∧ (SvgCanvas.reset (SvgCanvas.move_to 1 2 (SvgCanvas.new 100 100))).current_point
      = some (1, 2) := by
  refine ⟨rfl, ?_, rfl⟩
  simp [SvgCanvas.reset, SvgCanvas.move_to, SvgCanvas.new]

/-- C5 (amended): issued while the current point is undefined, `line_to`,
`bezier_curve_to`, `quadratic_curve_to`, `arc` and `ellipse` each first
synthesize an implicit `move_to(0,0)` and then append their own primitive
(never erroring, all operations being total); `arc_to` instead synthesizes
an implicit `move_to(p1)`. -/
theorem implicit_move_on_undefined_point (R : RealOps) (c : RecordingCanvas.Canvas)
    (h : c.current_point = none) :
    (∀ x y : ℚ, (RecordingCanvas.line_to x y c).current_path
        = c.current_path ++ [PathCommand.MoveTo 0 0, PathCommand.LineTo x y])
    ∧ (∀ a b d e x y : ℚ, (RecordingCanvas.bezier_curve_to a b d e x y c).current_path
        = c.current_path ++ [PathCommand.MoveTo 0 0, PathCommand.BezierCurveTo a b d e x y])
    ∧ (∀ cpx cpy x y : ℚ, (RecordingCanvas.quadratic_curve_to cpx cpy x y c).current_path
        = c.current_path ++ [PathCommand.MoveTo 0 0, PathCommand.QuadraticCurveTo cpx cpy x y])
    ∧ (∀ (x y r a1 a2 : ℚ) (ccw : Bool), (RecordingCanvas.arc R x y r a1 a2 ccw c).current_path
        = c.current_path ++ [PathCommand.MoveTo 0 0, PathCommand.Arc x y r a1 a2 ccw])
    ∧ (∀ (x y rx ry rot a1 a2 : ℚ) (ccw : Bool),
        (RecordingCanvas.ellipse R x y rx ry rot a1 a2 ccw c).current_path
        = c.current_path ++ [PathCommand.MoveTo 0 0, PathCommand.Ellipse x y rx ry rot a1 a2 ccw])
    ∧ (∀ x1 y1 x2 y2 r : ℚ, (RecordingCanvas.arc_to x1 y1 x2 y2 r c).current_path
        = c.current_path ++ [PathCommand.MoveTo x1 y1, PathCommand.ArcTo x1 y1 x2 y2 r]) := by
  refine ⟨?_, ?_, ?_, ?_, ?_, ?_⟩ <;> intros <;>
    simp [RecordingCanvas.line_to, RecordingCanvas.bezier_curve_to,
      RecordingCanvas.quadratic_curve_to, RecordingCanvas.arc, RecordingCanvas.ellipse,
      RecordingCanvas.arc_to, RecordingCanvas.ensure_subpath, RecordingCanvas.move_to, h]

/-- Witness for C5 at a fresh context. -/
theorem implicit_move_on_undefined_point_witness :
    (RecordingCanvas.line_to 3 4 RecordingCanvas.new).current_path
      = [PathCommand.MoveTo 0 0, PathCommand.LineTo 3 4] := by
  simpa using (implicit_move_on_undefined_point trivOps RecordingCanvas.new rfl).1 3 4

/-- Counterexample to C5 as stated: on a fresh context, `arc_to(5,7,9,11,2)`
synthesizes `move_to(5,7)` — the claim requires `move_to(0,0)`. -/
theorem implicit_move_counterexample :
    (RecordingCanvas.new.current_point = none)
    ∧ ((RecordingCanvas.arc_to 5 7 9 11 2 RecordingCanvas.new).current_path
        = [PathCommand.MoveTo 5 7, PathCommand.ArcTo 5 7 9 11 2])
    ∧ (RecordingCanvas.arc_to 5 7 9 11 2 RecordingCanvas.new).current_path.head?
        ≠ some (PathCommand.MoveTo 0 0) := by
  refine ⟨rfl, ?_, ?_⟩ <;>
    simp [RecordingCanvas.arc_to, RecordingCanvas.move_to, RecordingCanvas.new]

/-- C6 (amended): `close_path` always appends a `ClosePath` primitive — also
when no subpath start exists; it resets the current point to the subpath
start when one exists and leaves the current point untouched otherwise
(`Option.or`), in both the recording and the SVG backend. -/
theorem close_path_appends_and_resets (c : RecordingCanvas.Canvas)
    (d : SvgCanvas.Canvas) :
    RecordingCanvas.close_path c
      = { c with current_path := c.current_path ++ [PathCommand.ClosePath]
                 current_point := c.subpath_start.or c.current_point }
    ∧ SvgCanvas.close_path d
      = { d with current_path := d.current_path ++ [SvgCanvas.SvgCmd.Z]
                 current_point := d.subpath_start.or d.current_point } :=
  ⟨rfl, rfl⟩

/-- Counterexample to C6 as stated: on a fresh context there is no subpath
start, yet `close_path` appends a `ClosePath` primitive instead of being a
no-op. -/
theorem close_path_counterexample :
    (RecordingCanvas.new.subpath_start = none)
    ∧ ((RecordingCanvas.close_path RecordingCanvas.new).current_path
        = [PathCommand.ClosePath])
    ∧ (RecordingCanvas.close_path RecordingCanvas.new).current_path
        ≠ RecordingCanvas.new.current_path := by
  refine ⟨rfl, rfl, ?_⟩
  simp [RecordingCanvas.close_path, RecordingCanvas.new]

/-- C7 (amended): on an empty accumulated path, the recording backend's
`fill`, `stroke` and `clip` are complete no-ops (no emission, no error, no
change to current point or clip state), and the SVG backend's `fill` and
`stroke` succeed without emitting anything; the SVG backend's `clip`,
however, always returns an unsupported-operation error (changing nothing). -/
theorem empty_path_terminal_noop (rule : FillRule)
    (c : RecordingCanvas.Canvas) (hc : c.current_path = [])
    (d : SvgCanvas.Canvas) (hd : d.current_path = []) :
    RecordingCanvas.fill rule c = c
    ∧ RecordingCanvas.stroke c = c
    ∧ RecordingCanvas.clip rule c = c
    ∧ SvgCanvas.fill rule d = Except.ok d
    ∧ SvgCanvas.stroke d = Except.ok d
    ∧ ∀ e : SvgCanvas.Canvas,
        SvgCanvas.clip rule e = Except.error (LErr.notSupported ("clip")) := by
  refine ⟨?_, ?_, ?_, ?_, ?_, fun e => rfl⟩
  · unfold RecordingCanvas.fill
    rw [if_pos hc]
  · unfold RecordingCanvas.stroke
    rw [if_pos hc]
  · unfold RecordingCanvas.clip
    rw [if_pos hc]
  · unfold SvgCanvas.fill SvgCanvas.flush_path_fill
    rw [if_pos hd]
  · unfold SvgCanvas.stroke SvgCanvas.flush_path_stroke
    rw [if_pos hd]

/-- Witness for C7 at fresh contexts (both paths empty). -/
theorem empty_path_terminal_noop_witness :
    RecordingCanvas.fill FillRule.NonZero RecordingCanvas.new = RecordingCanvas.new :=
  (empty_path_terminal_noop FillRule.NonZero RecordingCanvas.new rfl
    (SvgCanvas.new 1 1) rfl).1

/-- Counterexample to C7 as stated: on the SVG context the accumulated path
is empty, yet `clip` returns an error rather than "not erroring". -/
theorem empty_path_clip_errors_counterexample :
    ((SvgCanvas.new 100 100).current_path = [])
    ∧ SvgCanvas.clip FillRule.NonZero (SvgCanvas.new 100 100)
        = Except.error (LErr.notSupported ("clip")) :=
  ⟨rfl, rfl⟩

/-- C8: `clip` on a non-empty path installs the consumed path, its fill rule
and the transform in effect at installation time as the live clip, and that
stored clip (path, rule and transform alike) survives any subsequent
sequence of transform operations unchanged. -/
theorem clip_installs_frozen_transform (R : RealOps) (c : RecordingCanvas.Canvas)
    (rule : FillRule) (h : c.current_path ≠ []) :
    ((RecordingCanvas.clip rule c).state.clip
        = some ⟨⟨c.current_path⟩, rule, c.state.transform⟩)
    ∧ ∀ ts : List CanvasOp, (∀ op ∈ ts, isTransformOp op = true) →
        (runOps R ts (RecordingCanvas.clip rule c)).state.clip
          = some ⟨⟨c.current_path⟩, rule, c.state.transform⟩ := by
  have h1 : (RecordingCanvas.clip rule c).state.clip
      = some ⟨⟨c.current_path⟩, rule, c.state.transform⟩ := by
    unfold RecordingCanvas.clip
    rw [if_neg h]
    rfl
  exact ⟨h1, fun ts hts => (runOps_clip_of_transforms R ts hts _).trans h1⟩

/-- Witness for C8: clipping a one-primitive path on a fresh context. -/
theorem clip_installs_frozen_transform_witness :
    (RecordingCanvas.clip FillRule.EvenOdd
        (RecordingCanvas.move_to 1 2 RecordingCanvas.new)).state.clip
      = some ⟨⟨(RecordingCanvas.move_to 1 2 RecordingCanvas.new).current_path⟩,
          FillRule.EvenOdd,
          (RecordingCanvas.move_to 1 2 RecordingCanvas.new).state.transform⟩ :=
  (clip_installs_frozen_transform trivOps
    (RecordingCanvas.move_to 1 2 RecordingCanvas.new) FillRule.EvenOdd
    (by simp [RecordingCanvas.move_to, RecordingCanvas.new])).1

/-- C9: the recording backend expands the supplied radii list to exactly four
per-corner radii by the documented 0/1/2/3/4-value rule (extras ignored);
and where the engine flattens to geometry (the cairo backend), a single
radius `r` yields four equal corner radii, each the clamp of `r` to at most
`min(w,h)/2`. -/
theorem round_rect_radii_expansion (R : RealOps) (c : RecordingCanvas.Canvas)
    (x y w h : ℚ) :
    ((RecordingCanvas.round_rect x y w h [] c).current_path
        = c.current_path ++ [PathCommand.RoundRect x y w h 0 0 0 0])
    ∧ (∀ r0 : ℚ, (RecordingCanvas.round_rect x y w h [r0] c).current_path
        = c.current_path ++ [PathCommand.RoundRect x y w h r0 r0 r0 r0])
    ∧ (∀ r0 r1 : ℚ, (RecordingCanvas.round_rect x y w h [r0, r1] c).current_path
        = c.current_path ++ [PathCommand.RoundRect x y w h r0 r1 r0 r1])
    ∧ (∀ r0 r1 r2 : ℚ, (RecordingCanvas.round_rect x y w h [r0, r1, r2] c).current_path
        = c.current_path ++ [PathCommand.RoundRect x y w h r0 r1 r2 r1])
    ∧ (∀ (r0 r1 r2 r3 : ℚ) (rest : List ℚ),
        (RecordingCanvas.round_rect x y w h (r0 :: r1 :: r2 :: r3 :: rest) c).current_path
        = c.current_path ++ [PathCommand.RoundRect x y w h r0 r1 r2 r3])
    ∧ ∀ (d : CairoCanvas.Canvas) (r : ℚ) (rest : List ℚ),
        ((CairoCanvas.round_rect R x y w h (r :: rest) d).ctx
          = d.ctx ++ [CairoCanvas.CairoCmd.new_path,
              CairoCanvas.CairoCmd.arc (x + min r (min w h / 2)) (y + min r (min w h / 2))
                (min r (min w h / 2)) R.pi (3 / 2 * R.pi),
              CairoCanvas.CairoCmd.arc (x + w - min r (min w h / 2)) (y + min r (min w h / 2))
                (min r (min w h / 2)) (3 / 2 * R.pi) 0,
              CairoCanvas.CairoCmd.arc (x + w - min r (min w h / 2)) (y + h - min r (min w h / 2))
                (min r (min w h / 2)) 0 (1 / 2 * R.pi),
              CairoCanvas.CairoCmd.arc (x + min r (min w h / 2)) (y + h - min r (min w h / 2))
                (min r (min w h / 2)) (1 / 2 * R.pi) R.pi,
              CairoCanvas.CairoCmd.close_path])
        ∧ min r (min w h / 2) ≤ min w h / 2 := by
  have hmin : min (w / 2) (h / 2) = min w h / 2 := by
    rcases le_total w h with hwh | hwh
    · rw [min_eq_left hwh, min_eq_left (by linarith : w / 2 ≤ h / 2)]
    · rw [min_eq_right hwh, min_eq_right (by linarith : h / 2 ≤ w / 2)]
  have hclamp : ∀ r : ℚ, min (min r (w / 2)) (h / 2) = min r (min w h / 2) := by
    intro r
    rw [min_assoc, hmin]
  refine ⟨?_, ?_, ?_, ?_, ?_, ?_⟩
  · simp [RecordingCanvas.round_rect]
  · intro r0; simp [RecordingCanvas.round_rect]
  · intro r0 r1; simp [RecordingCanvas.round_rect]
  · intro r0 r1 r2; simp [RecordingCanvas.round_rect]
  · intro r0 r1 r2 r3 rest; simp [RecordingCanvas.round_rect]
  · intro d r rest
    constructor
    · unfold CairoCanvas.round_rect CairoCanvas.begin_path CairoCanvas.close_path
      simp [hclamp r]
    · exact min_le_right r (min w h / 2)
